import Mathlib

/-!
Verification of the news-discovery orchestration engine of the hvac_news
repository (`news/discovery_service.py`, `references/models.py`,
`news/models.py`).

Embedding conventions:
* Django model rows become Lean structures; the `NewsPost` table becomes a
  `List Post`.
* Python `float` arithmetic of the statistics model is embedded as exact
  rational arithmetic (`ℚ`); `round(x, 2)` becomes `rnd2` (rounding
  `100 * x` to the nearest integer).  The verified claims depend only on
  monotone bounds of rounding, which hold for both Python's half-even and
  the model's nearest-integer rounding.
* Timestamps (`timezone.now()`, `created_at`, window cutoffs) are embedded
  as integers (seconds); `timedelta(days = d)` is `d * 86400`.
* The network calls of the provider adapters are external collaborators:
  the outcome of one `_query_*` invocation is embedded as
  `Except String LLMResp` (an exception, or a parsed JSON value as the
  orchestrator classifies it).  Likewise the raw-text JSON-recovery
  cascades are embedded as functions of the outcomes of their individual
  `json.loads` attempts (`Option LLMResp`: `none` = that attempt raised
  `JSONDecodeError` / the regex did not match), which covers every raw
  response text, since each text induces exactly one outcome per attempt.
* Exceptions raised by `NewsPost.objects.create` (the datastore layer,
  outside this repository) are modelled by the oracle bit
  `dbCreateRaises` on a news item; malformed items (a `title` that is a
  JSON array, a non-object entry in the `news` array) raise
  `AttributeError` inside `_create_news_post` itself and are modelled
  structurally.
-/

namespace HvacNews

/-! ## Basic data -/

/-- `NewsResource.source_type` (`references/models.py`):
`auto`, `manual`, or `hybrid`. -/
inductive SourceType
  | auto
  | manual
  | hybrid
deriving DecidableEq

/-- A `NewsResource` row (`references/models.py`), restricted to the fields
the discovery service reads. -/
structure Resource where
  id : Nat
  name : String
  url : String
  sourceType : SourceType
  language : String
  customInstructions : String
deriving DecidableEq

/-- A `NewsPost` row (`news/models.py`), restricted to the fields the
discovery service writes and the statistics recount reads.
`is_no_news_found` has model default `False`. -/
structure Post where
  title : String
  body : String
  source_url : String
  status : String
  source_language : String
  is_no_news_found : Bool
  created_at : Int
deriving DecidableEq

/-- A JSON value sitting under the `title` / `summary` key of one news item:
a plain string, an object of per-language strings, or an array (the latter
has no `.get` attribute, so `_create_news_post` raises on it). -/
inductive JVal
  | str (s : String)
  | obj (entries : List (String × String))
  | arr
deriving DecidableEq

/-- One JSON object inside the `news` array, as `_create_news_post` reads it.
`dbCreateRaises` is the oracle for an exception inside
`NewsPost.objects.create` (datastore layer, external to the repository). -/
structure RawNewsItem where
  title : Option JVal
  summary : Option JVal
  sourceUrl : String
  dbCreateRaises : Bool
deriving DecidableEq

/-- One entry of the `news` array: a JSON object, or a non-object entry
(on which `news_item.get` raises `AttributeError`). -/
inductive NewsItemVal
  | obj (item : RawNewsItem)
  | nonObj
deriving DecidableEq

/-- A parsed LLM response as the orchestrator classifies it
(lines 321-324 of `discovery_service.py`):
`falsyNonNews` — a Python-falsy value (`{}`, `[]`, `""`, ...);
`truthyNonNews` — a truthy value that is not a dict with a `news` key;
`withNews items` — a dict containing the key `news` with an array value
(such a dict is non-empty, hence truthy). -/
inductive LLMResp
  | falsyNonNews
  | truthyNonNews
  | withNews (items : List NewsItemVal)
deriving DecidableEq

/-- Python truthiness of a parsed response. -/
def LLMResp.truthy : LLMResp → Bool
  | .falsyNonNews => false
  | .truthyNonNews => true
  | .withNews _ => true

/-- Python `not result` on an optional response value:
true when the attempt produced nothing or a falsy value. -/
def notRes : Option LLMResp → Bool
  | none => true
  | some v => !v.truthy

/-! ## Case-insensitive containment (`source_url__icontains`) -/

/-- Whether `p` is an initial segment of `l`. -/
def charsStartWith : List Char → List Char → Bool
  | [], _ => true
  | _ :: _, [] => false
  | a :: as, b :: bs => a = b && charsStartWith as bs

/-- Whether `ns` occurs contiguously inside `hs`. -/
def charsContains : List Char → List Char → Bool
  | [], ns => charsStartWith ns []
  | h :: t, ns => charsStartWith ns (h :: t) || charsContains t ns

/-- Django `field__icontains=needle`: case-insensitive containment. -/
def icontains (hay needle : String) : Bool :=
  charsContains hay.toLower.data needle.toLower.data

theorem charsStartWith_self : ∀ l : List Char, charsStartWith l l = true := by
  intro l
  induction l with
  | nil => rfl
  | cons a as ih => simp [charsStartWith, ih]

theorem charsContains_self : ∀ l : List Char, charsContains l l = true := by
  intro l
  cases l with
  | nil => rfl
  | cons a as => simp [charsContains, charsStartWith_self]

theorem icontains_self (s : String) : icontains s s = true := by
  simp [icontains, charsContains_self]

/-! ## Record creation (`_create_news_post`, `_create_no_news_news`,
`_create_error_news`) -/

/-- Python `dict.get(k, dflt)` on an object of string values. -/
def jGet (entries : List (String × String)) (k dflt : String) : String :=
  match entries.find? (fun e => e.1 = k) with
  | some e => e.2
  | none => dflt

/-- `getattr(resource, 'language', 'en') or 'en'`. -/
def resourceLanguage (r : Resource) : String :=
  if r.language = "" then "en" else r.language

/-- `_create_news_post` (discovery_service.py lines 1087-1138): extracts
title/summary (string form for Russian-style responses, per-language object
form otherwise), falls back to the resource URL for an empty `source_url`,
and creates one draft `NewsPost` with `is_no_news_found` left at its
default `False`.  Raises (`Except.error`) on a non-object item, on a
`title` value that is a JSON array (`.get` on a list raises
`AttributeError`), or when the datastore create raises.  The per-language
`setattr` translations are not modelled (no claim reads them). -/
def createNewsPost (item : NewsItemVal) (resource : Resource) (now : Int) :
    Except String Post :=
  match item with
  | .nonObj => .error "AttributeError: item has no attribute get"
  | .obj it =>
    let titleData := it.title.getD (.obj [])
    let summaryData := it.summary.getD (.obj [])
    match titleData with
    | .arr => .error "AttributeError: list has no attribute get"
    | .str t =>
      let titleRu := if t = "" then "Без заголовка" else t
      let summaryRu := match summaryData with
        | .str s => s
        | _ => ""
      if it.dbCreateRaises then .error "database error on create"
      else .ok
        { title := titleRu
          body := summaryRu
          source_url := if it.sourceUrl = "" then resource.url else it.sourceUrl
          status := "draft"
          source_language := resourceLanguage resource
          is_no_news_found := false
          created_at := now }
    | .obj es =>
      let titleRu := jGet es "ru" "Без заголовка"
      let summaryRu := match summaryData with
        | .obj ss => jGet ss "ru" ""
        | _ => ""
      if it.dbCreateRaises then .error "database error on create"
      else .ok
        { title := titleRu
          body := summaryRu
          source_url := if it.sourceUrl = "" then resource.url else it.sourceUrl
          status := "draft"
          source_language := resourceLanguage resource
          is_no_news_found := false
          created_at := now }

/-- `_create_no_news_news` (lines 1140-1169): the "no news found" sentinel.
`source_url` is the resource URL and `is_no_news_found=True`.  The date
formatting inside the body text is elided (no claim reads the body). -/
def createNoNewsPost (resource : Resource) (now : Int) : Post :=
  { title := "Новостей от источника '" ++ resource.name ++ "' не найдено"
    body := "За период на ресурсе [" ++ resource.name ++ "](" ++ resource.url
      ++ ") новостей не обнаружено."
    source_url := resource.url
    status := "draft"
    source_language := "ru"
    is_no_news_found := true
    created_at := now }

/-- `_create_error_news` (lines 1171-1199): the error sentinel.
`source_url` is the resource URL; `is_no_news_found` is not passed to
`create`, so it keeps its model default `False`. -/
def createErrorNews (resource : Resource) (errorMessage : String) (now : Int) :
    Post :=
  { title := "Ошибка при поиске новостей от источника '" ++ resource.name ++ "'"
    body := "При попытке получить новости с ресурса [" ++ resource.name ++ "]("
      ++ resource.url ++ ") произошла ошибка:\n\n" ++ errorMessage
    source_url := resource.url
    status := "draft"
    source_language := "ru"
    is_no_news_found := false
    created_at := now }

/-! ## Ranking / statistics model
(`NewsResourceStatistics` in `references/models.py`,
`_update_resource_statistics` in `discovery_service.py`) -/

/-- A `NewsResourceStatistics` row.  Counters are naturals (Django
`IntegerField` rows only ever incremented from their default 0), the
float fields are exact rationals. -/
structure Stats where
  total_news_found : Nat
  total_searches : Nat
  total_no_news : Nat
  total_errors : Nat
  last_search_date : Option Int
  last_news_date : Option Int
  first_search_date : Option Int
  success_rate : ℚ
  error_rate : ℚ
  avg_news_per_search : ℚ
  news_last_30_days : Nat
  news_last_90_days : Nat
  searches_last_30_days : Nat
  ranking_score : ℚ
  priority : Int
  is_active : Bool
deriving DecidableEq

/-- Python `round(x, 2)`: round to two decimal places. -/
def rnd2 (q : ℚ) : ℚ :=
  ((round (100 * q) : ℤ) : ℚ) / 100

/-- `NewsResourceStatistics.calculate_ranking_score`
(references/models.py lines 248-271). -/
def calculateRankingScore (s : Stats) : ℚ :=
  let totalNewsScore := min ((s.total_news_found : ℚ) / 10) 100
  let activityScore := min ((s.news_last_30_days : ℚ) * 5) 100
  let successScore := s.success_rate
  let avgNewsScore := min (s.avg_news_per_search * 20) 100
  rnd2 (totalNewsScore * (3 / 10) + activityScore * (3 / 10)
    + successScore * (2 / 10) + avgNewsScore * (2 / 10))

/-- The 30- and 90-day windowed recount (lines 1262-1272): count of `NewsPost`
rows whose `source_url` icontains the resource URL, with
`is_no_news_found=False`, created at or after the cutoff. -/
def windowCount (posts : List Post) (resourceUrl : String) (cutoff : Int) :
    Nat :=
  posts.countP (fun p =>
    icontains p.source_url resourceUrl && !p.is_no_news_found
      && decide (cutoff ≤ p.created_at))

/-- `_update_resource_statistics`, counter section (lines 1226-1242):
`total_searches`, search dates, and the mutually exclusive bucket chain
`if has_errors or error_count > 0 / elif is_no_news / else`. -/
def countersStage (stats : Stats) (now : Int) (wasCreated : Bool)
    (newsCount errorCount : Nat) (isNoNews hasErrors : Bool) : Stats :=
  let s1 := { stats with
    total_searches := stats.total_searches + 1
    last_search_date := some now }
  let s2 := if wasCreated then { s1 with first_search_date := some now } else s1
  if hasErrors || decide (0 < errorCount) then
    { s2 with total_errors := s2.total_errors + 1 }
  else if isNoNews then
    { s2 with total_no_news := s2.total_no_news + 1 }
  else
    { s2 with
      total_news_found := s2.total_news_found + newsCount
      last_news_date := some now }

/-- `_update_resource_statistics`, percentage section (lines 1244-1253). -/
def ratesStage (s : Stats) : Stats :=
  if 0 < s.total_searches then
    let t : ℚ := (s.total_searches : ℚ)
    let successful : ℚ :=
      (s.total_searches : ℚ) - (s.total_no_news : ℚ) - (s.total_errors : ℚ)
    { s with
      success_rate := rnd2 (successful / t * 100)
      error_rate := rnd2 ((s.total_errors : ℚ) / t * 100)
      avg_news_per_search := rnd2 ((s.total_news_found : ℚ) / t) }
  else
    { s with success_rate := 0, error_rate := 0, avg_news_per_search := 0 }

/-- `_update_resource_statistics`, windowed section (lines 1255-1284):
the 30- and 90-day recount from the `NewsPost` table and the
`searches_last_30_days` estimate. -/
def windowStage (posts : List Post) (resource : Resource) (now : Int)
    (s : Stats) : Stats :=
  let thirtyDaysAgo := now - 30 * 86400
  let ninetyDaysAgo := now - 90 * 86400
  let s5 := { s with
    news_last_30_days := windowCount posts resource.url thirtyDaysAgo
    news_last_90_days := windowCount posts resource.url ninetyDaysAgo }
  match s5.last_search_date with
  | some d =>
    if thirtyDaysAgo ≤ d then
      { s5 with searches_last_30_days := min s5.total_searches (s5.searches_last_30_days + 1) }
    else { s5 with searches_last_30_days := 0 }
  | none => { s5 with searches_last_30_days := 0 }

/-- `_update_resource_statistics`, final section (lines 1286-1296):
ranking score, activity flag (`update_active_status`), priority. -/
def scoreStage (s : Stats) : Stats :=
  let s7 := { s with ranking_score := calculateRankingScore s }
  let s8 := { s7 with is_active := decide (0 < s7.news_last_90_days) }
  { s8 with priority := ⌊s8.ranking_score⌋ }

/-- `_update_resource_statistics` (lines 1201-1304).  `posts` is the
`NewsPost` table at update time, `wasCreated` is the `created` flag of
`get_or_create`.  The surrounding `try/except` only swallows datastore
errors, which the pure model cannot raise. -/
def updateResourceStatistics (posts : List Post) (resource : Resource)
    (now : Int) (stats : Stats) (wasCreated : Bool)
    (newsCount errorCount : Nat) (isNoNews hasErrors : Bool) : Stats :=
  scoreStage (windowStage posts resource now (ratesStage
    (countersStage stats now wasCreated newsCount errorCount isNoNews hasErrors)))

theorem countersStage_spec (stats : Stats) (now : Int) (wasCreated : Bool)
    (newsCount errorCount : Nat) (isNoNews hasErrors : Bool) :
    (countersStage stats now wasCreated newsCount errorCount isNoNews
      hasErrors).total_searches = stats.total_searches + 1 ∧
    (countersStage stats now wasCreated newsCount errorCount isNoNews
      hasErrors).total_errors = stats.total_errors +
        (if hasErrors || decide (0 < errorCount) then 1 else 0) ∧
    (countersStage stats now wasCreated newsCount errorCount isNoNews
      hasErrors).total_no_news = stats.total_no_news +
        (if !(hasErrors || decide (0 < errorCount)) && isNoNews then 1 else 0) ∧
    (countersStage stats now wasCreated newsCount errorCount isNoNews
      hasErrors).total_news_found = stats.total_news_found +
        (if !(hasErrors || decide (0 < errorCount)) && !isNoNews then newsCount
          else 0) ∧
    (countersStage stats now wasCreated newsCount errorCount isNoNews
      hasErrors).last_search_date = some now ∧
    ((!(hasErrors || decide (0 < errorCount)) && !isNoNews) = true →
      (countersStage stats now wasCreated newsCount errorCount isNoNews
        hasErrors).last_news_date = some now) := by
  cases hasErrors <;> by_cases hec : 0 < errorCount <;>
    cases isNoNews <;> cases wasCreated <;>
      simp_all [countersStage]

theorem ratesStage_preserves (s : Stats) :
    (ratesStage s).total_searches = s.total_searches ∧
    (ratesStage s).total_errors = s.total_errors ∧
    (ratesStage s).total_no_news = s.total_no_news ∧
    (ratesStage s).total_news_found = s.total_news_found ∧
    (ratesStage s).last_news_date = s.last_news_date ∧
    (ratesStage s).last_search_date = s.last_search_date ∧
    (ratesStage s).news_last_30_days = s.news_last_30_days ∧
    (ratesStage s).news_last_90_days = s.news_last_90_days := by
  unfold ratesStage
  split <;> simp

theorem ratesStage_rates (s : Stats) (h : 0 < s.total_searches) :
    (ratesStage s).success_rate =
      rnd2 (((s.total_searches : ℚ) - (s.total_no_news : ℚ)
        - (s.total_errors : ℚ)) / (s.total_searches : ℚ) * 100) ∧
    (ratesStage s).avg_news_per_search =
      rnd2 ((s.total_news_found : ℚ) / (s.total_searches : ℚ)) := by
  unfold ratesStage
  rw [if_pos h]
  exact ⟨rfl, rfl⟩

theorem windowStage_spec (posts : List Post) (resource : Resource)
    (now : Int) (s : Stats) :
    (windowStage posts resource now s).news_last_30_days =
      windowCount posts resource.url (now - 30 * 86400) ∧
    (windowStage posts resource now s).news_last_90_days =
      windowCount posts resource.url (now - 90 * 86400) ∧
    (windowStage posts resource now s).total_searches = s.total_searches ∧
    (windowStage posts resource now s).total_errors = s.total_errors ∧
    (windowStage posts resource now s).total_no_news = s.total_no_news ∧
    (windowStage posts resource now s).total_news_found = s.total_news_found ∧
    (windowStage posts resource now s).success_rate = s.success_rate ∧
    (windowStage posts resource now s).avg_news_per_search =
      s.avg_news_per_search ∧
    (windowStage posts resource now s).last_news_date = s.last_news_date := by
  simp only [windowStage]
  cases hls : s.last_search_date with
  | none => simp [hls]
  | some d =>
    simp only [hls]
    split <;> simp

theorem scoreStage_spec (s : Stats) :
    (scoreStage s).ranking_score = calculateRankingScore s ∧
    (scoreStage s).is_active = decide (0 < s.news_last_90_days) ∧
    (scoreStage s).total_searches = s.total_searches ∧
    (scoreStage s).total_errors = s.total_errors ∧
    (scoreStage s).total_no_news = s.total_no_news ∧
    (scoreStage s).total_news_found = s.total_news_found ∧
    (scoreStage s).success_rate = s.success_rate ∧
    (scoreStage s).avg_news_per_search = s.avg_news_per_search ∧
    (scoreStage s).news_last_30_days = s.news_last_30_days ∧
    (scoreStage s).news_last_90_days = s.news_last_90_days ∧
    (scoreStage s).last_news_date = s.last_news_date := by
  simp [scoreStage]

theorem ite_ok_exists {c : Prop} [Decidable c] (a b : LLMResp) :
    ∃ v, (if c then Except.ok a else Except.ok b : Except String LLMResp) =
      Except.ok v := by
  by_cases h : c
  · exact ⟨a, if_pos h⟩
  · exact ⟨b, if_neg h⟩

/-- Counter fields of a full statistics update, in terms of the previous
state and the raw bucket condition of the source. -/
theorem update_counters_spec (posts : List Post) (resource : Resource)
    (now : Int) (stats : Stats) (wasCreated : Bool)
    (newsCount errorCount : Nat) (isNoNews hasErrors : Bool) :
    (updateResourceStatistics posts resource now stats wasCreated newsCount
      errorCount isNoNews hasErrors).total_searches =
        stats.total_searches + 1 ∧
    (updateResourceStatistics posts resource now stats wasCreated newsCount
      errorCount isNoNews hasErrors).total_errors = stats.total_errors +
        (if hasErrors || decide (0 < errorCount) then 1 else 0) ∧
    (updateResourceStatistics posts resource now stats wasCreated newsCount
      errorCount isNoNews hasErrors).total_no_news = stats.total_no_news +
        (if !(hasErrors || decide (0 < errorCount)) && isNoNews then 1
          else 0) ∧
    (updateResourceStatistics posts resource now stats wasCreated newsCount
      errorCount isNoNews hasErrors).total_news_found =
        stats.total_news_found +
        (if !(hasErrors || decide (0 < errorCount)) && !isNoNews then newsCount
          else 0) ∧
    ((!(hasErrors || decide (0 < errorCount)) && !isNoNews) = true →
      (updateResourceStatistics posts resource now stats wasCreated newsCount
        errorCount isNoNews hasErrors).last_news_date = some now) := by
  obtain ⟨c1, c2, c3, c4, c5, c6⟩ :=
    countersStage_spec stats now wasCreated newsCount errorCount isNoNews
      hasErrors
  obtain ⟨r1, r2, r3, r4, r5, r6, -, -⟩ :=
    ratesStage_preserves (countersStage stats now wasCreated newsCount
      errorCount isNoNews hasErrors)
  obtain ⟨-, -, w3, w4, w5, w6, -, -, w9⟩ :=
    windowStage_spec posts resource now (ratesStage (countersStage stats now
      wasCreated newsCount errorCount isNoNews hasErrors))
  obtain ⟨-, -, t3, t4, t5, t6, -, -, -, -, t11⟩ :=
    scoreStage_spec (windowStage posts resource now (ratesStage
      (countersStage stats now wasCreated newsCount errorCount isNoNews
        hasErrors)))
  unfold updateResourceStatistics
  rw [t3, w3, r1, c1, t4, w4, r2, c2, t5, w5, r3, c3, t6, w6, r4, c4]
  refine ⟨rfl, rfl, rfl, rfl, ?_⟩
  intro h
  rw [t11, w9, r5, c6 h]

/-! ## JSON-recovery cascades of the provider adapters

Each cascade is a function of the outcomes of its individual parse
attempts on the raw response text (`none` = `json.loads` raised or the
regex found no match); `Except.error` means the adapter raises instead of
returning a parsed value. -/

/-- `_query_grok` parse cascade (lines 772-796): direct parse, then the
`"news"` regex block, then the markdown fence; a still-falsy result
becomes the `{"news": []}` sentinel.  Never raises. -/
def grokExtract (direct newsRegexBlock mdFence : Option LLMResp) :
    Except String LLMResp :=
  match direct with
  | some r => .ok r
  | none =>
    let r1 := newsRegexBlock
    let r2 := if notRes r1 then
        match mdFence with
        | some v => some v
        | none => r1
      else r1
    if notRes r2 then .ok (.withNews [])
    else .ok (r2.getD (.withNews []))

/-- `_query_openai` Responses-API parse cascade (lines 564-576): direct
parse, then the `"news"` regex block, then the `{"news": []}` sentinel.
Never raises. -/
def openaiResponsesExtract (direct newsRegexBlock : Option LLMResp) :
    Except String LLMResp :=
  match direct with
  | some r => .ok r
  | none =>
    if notRes newsRegexBlock then .ok (.withNews [])
    else .ok (newsRegexBlock.getD (.withNews []))

/-- `_query_openai` Chat-Completions fallback path (lines 581-600):
`result = json.loads(content)` with no recovery; a parse failure escapes
as `ValueError` (lines 621-633). -/
def openaiChatExtract (direct : Option LLMResp) : Except String LLMResp :=
  match direct with
  | some r => .ok r
  | none => .error "Invalid JSON response from OpenAI"

/-- `_query_anthropic` parse cascade (lines 914-958): direct parse,
markdown fence, `"news"` regex block, then the brace-counting scan (which
only accepts a span whose parse contains a `news` key), then the
sentinel.  Never raises. -/
def anthropicExtract (direct mdFence newsRegexBlock : Option LLMResp)
    (braceScan : Option (List NewsItemVal)) : Except String LLMResp :=
  match direct with
  | some r => .ok r
  | none =>
    let r1 := mdFence
    let r2 := if notRes r1 then
        match newsRegexBlock with
        | some v => some v
        | none => r1
      else r1
    let r3 := if notRes r2 then
        match braceScan with
        | some items => some (.withNews items)
        | none => r2
      else r2
    if notRes r3 then .ok (.withNews [])
    else .ok (r3.getD (.withNews []))

/-- `_query_gemini` parse path (lines 1027-1070): after stripping markdown
fences, `result = json.loads(content)` with no recovery; a parse failure
escapes as `ValueError`. -/
def geminiExtract (direct : Option LLMResp) : Except String LLMResp :=
  match direct with
  | some r => .ok r
  | none => .error "Invalid JSON response from Gemini"

/-! ## `discover_news_for_resource` (lines 147-354) -/

/-- The provider environment of one `NewsDiscoveryService` instance:
which providers the active `SearchConfiguration` enables, which API keys
are configured, and the outcome each `_query_*` call would produce
(`Except.error` = the call raises). -/
structure DiscEnv where
  useGrok : Bool
  useAnthropic : Bool
  useOpenaiFallback : Bool
  grokKey : Bool
  anthropicKey : Bool
  openaiKey : Bool
  grokResult : Except String LLMResp
  anthropicResult : Except String LLMResp
  openaiResult : Except String LLMResp

/-- The arguments of one `_update_resource_statistics` call. -/
structure StatsArgs where
  news_count : Nat
  error_count : Nat
  is_no_news : Bool
  has_errors : Bool
deriving DecidableEq

/-- The observable outcome of one `discover_news_for_resource` call:
the `NewsPost` rows it creates (in order), the statistics-update call it
makes (if any), and its `(created_count, error_count, error_message)`
return value. -/
structure DiscResult where
  posts : List Post
  statsCall : Option StatsArgs
  created : Nat
  errors : Nat
  errMsg : Option String
deriving DecidableEq

/-- The `provider='auto'` fallback chain (lines 175-210): Grok, then
Anthropic, then the OpenAI fallback, each guarded by its enable flag and
API key and by `not llm_response`; an exception is appended to
`errors_chain`, a successful assignment overwrites the previous value.
Returns the final `llm_response` and `errors_chain`. -/
def autoChain (env : DiscEnv) : Option LLMResp × List String :=
  let step0 : Option LLMResp × List String :=
    if env.useGrok && env.grokKey then
      match env.grokResult with
      | .ok r => (some r, [])
      | .error m => (none, ["Grok: " ++ m])
    else (none, [])
  let step1 : Option LLMResp × List String :=
    if notRes step0.1 && env.useAnthropic && env.anthropicKey then
      match env.anthropicResult with
      | .ok r => (some r, step0.2)
      | .error m => (step0.1, step0.2 ++ ["Anthropic: " ++ m])
    else step0
  if notRes step1.1 && env.useOpenaiFallback && env.openaiKey then
    match env.openaiResult with
    | .ok r => (some r, step1.2)
    | .error m => (step1.1, step1.2 ++ ["OpenAI fallback: " ++ m])
  else step1

/-- The per-item creation loop (lines 336-343): each item is created
inside its own `try/except`; a failure increments `error_count` and the
loop continues.  Returns (created posts in order, created_count,
error_count). -/
def createLoop (items : List NewsItemVal) (resource : Resource) (now : Int) :
    List Post × Nat × Nat :=
  match items with
  | [] => ([], 0, 0)
  | i :: rest =>
    let tail := createLoop rest resource now
    match createNewsPost i resource now with
    | .ok p => (p :: tail.1, tail.2.1 + 1, tail.2.2)
    | .error _ => (tail.1, tail.2.1, tail.2.2 + 1)

/-- Response processing (lines 321-354), reached with a truthy
`llm_response`: an absent or empty `news` array yields the single no-news
sentinel (reported as 1 created record); otherwise the per-item loop runs.
The statistics call passes `news_count = 0` for the sentinel case and
`has_errors = (error_count > 0 or llm_error is not None)`. -/
def processResponse (resource : Resource) (now : Int) (resp : LLMResp)
    (llmError : Option String) : DiscResult :=
  let finalNews : List NewsItemVal :=
    match resp with
    | .withNews items => items
    | _ => []
  if finalNews.isEmpty then
    { posts := [createNoNewsPost resource now]
      statsCall := some ⟨0, 0, true, llmError.isSome⟩
      created := 1
      errors := 0
      errMsg := none }
  else
    let r := createLoop finalNews resource now
    { posts := r.1
      statsCall := some ⟨r.2.1, r.2.2, false, decide (0 < r.2.2) || llmError.isSome⟩
      created := r.2.1
      errors := r.2.2
      errMsg := none }

/-- Lines 290-354: the `if not llm_response` all-providers-failed branch
(error sentinel plus a statistics call with `has_errors=True`), else
response processing.  `errorsChain` is the accumulated error chain;
`llm_error` is its `"; "` join when non-empty. -/
def processAfterChain (resource : Resource) (now : Int)
    (respOpt : Option LLMResp) (errorsChain : List String) : DiscResult :=
  let llmError : Option String :=
    if errorsChain.isEmpty then none
    else some (String.intercalate "; " errorsChain)
  match respOpt with
  | some r =>
    if r.truthy then processResponse resource now r llmError
    else
      let msg :=
        match llmError with
        | some e => "Ошибка всех провайдеров: " ++ e
        | none => "Не настроен ни один провайдер LLM (Grok, Anthropic или OpenAI)"
      { posts := [createErrorNews resource msg now]
        statsCall := some ⟨0, 1, false, true⟩
        created := 0
        errors := 1
        errMsg := some msg }
  | none =>
    let msg :=
      match llmError with
      | some e => "Ошибка всех провайдеров: " ++ e
      | none => "Не настроен ни один провайдер LLM (Grok, Anthropic или OpenAI)"
    { posts := [createErrorNews resource msg now]
      statsCall := some ⟨0, 1, false, true⟩
      created := 0
      errors := 1
      errMsg := some msg }

/-- `discover_news_for_resource` (lines 147-354).  `provider` is the raw
provider string.  The explicit-provider branches mirror the source: a
missing API key or an unknown provider creates the error sentinel and
returns without any statistics call (lines 213-218, 237-242, 261-266,
284-288); an exception from the explicitly selected provider creates the
sentinel, updates statistics with `has_errors=True` and returns. -/
def discoverNewsForResource (env : DiscEnv) (resource : Resource)
    (provider : String) (now : Int) : DiscResult :=
  if provider = "auto" then
    let c := autoChain env
    processAfterChain resource now c.1 c.2
  else if provider = "grok" then
    if !env.grokKey then
      { posts := [createErrorNews resource "Grok API key не настроен" now]
        statsCall := none
        created := 0
        errors := 1
        errMsg := some "Grok API key не настроен" }
    else
      match env.grokResult with
      | .ok r => processAfterChain resource now (some r) []
      | .error m =>
        let msg := "Ошибка Grok: " ++ m
        { posts := [createErrorNews resource msg now]
          statsCall := some ⟨0, 1, false, true⟩
          created := 0
          errors := 1
          errMsg := some msg }
  else if provider = "anthropic" then
    if !env.anthropicKey then
      { posts := [createErrorNews resource "Anthropic API key не настроен" now]
        statsCall := none
        created := 0
        errors := 1
        errMsg := some "Anthropic API key не настроен" }
    else
      match env.anthropicResult with
      | .ok r => processAfterChain resource now (some r) []
      | .error m =>
        let msg := "Ошибка Anthropic: " ++ m
        { posts := [createErrorNews resource msg now]
          statsCall := some ⟨0, 1, false, true⟩
          created := 0
          errors := 1
          errMsg := some msg }
  else if provider = "openai" then
    if !env.openaiKey then
      { posts := [createErrorNews resource "OpenAI API key не настроен" now]
        statsCall := none
        created := 0
        errors := 1
        errMsg := some "OpenAI API key не настроен" }
    else
      match env.openaiResult with
      | .ok r => processAfterChain resource now (some r) []
      | .error m =>
        let msg := "Ошибка OpenAI: " ++ m
        { posts := [createErrorNews resource msg now]
          statsCall := some ⟨0, 1, false, true⟩
          created := 0
          errors := 1
          errMsg := some msg }
  else
    let msg := "Неизвестный провайдер: " ++ provider
    { posts := [createErrorNews resource msg now]
      statsCall := none
      created := 0
      errors := 1
      errMsg := some msg }

/-! ## `discover_all_news` (lines 1306-1396) -/

/-- The initial work queue (lines 1321-1322): all resources in primary-key
order with `source_type = 'manual'` excluded.  The catalog list stands for
`NewsResource.objects.all().order_by('id')`, i.e. it is taken to be in
id order. -/
def workQueue (catalog : List Resource) : List Resource :=
  catalog.filter (fun r => !(r.sourceType == SourceType.manual))

/-- The `skipped_manual` tally (line 1323): the number of `manual`-type
resources in the catalog. -/
def skippedManual (catalog : List Resource) : Nat :=
  (catalog.filter (fun r => r.sourceType == SourceType.manual)).length

/-- The loop state of `discover_all_news`: the main queue, the retry
queue, and the running tallies. -/
structure BatchState where
  queue : List Resource
  retry : List Resource
  created : Nat
  errors : Nat
  processed : Nat
deriving DecidableEq

/-- Lines 1345-1348: when the main queue is empty and the retry queue is
not, the retry queue becomes the main queue and is cleared. -/
def batchSwap (s : BatchState) : BatchState :=
  if s.queue.isEmpty && !s.retry.isEmpty then
    { s with queue := s.retry, retry := [] }
  else s

/-- One iteration of the `while resources or retry_queue` loop
(lines 1344-1374): swap if needed, pop the head, run
`discover_news_for_resource`, accumulate tallies, and append the target to
the retry queue when `error_msg` is set and it is not already queued.
The model's `discoverNewsForResource` is total, so the
unexpected-exception `except` branch (lines 1370-1374) cannot fire. -/
def batchStep (env : DiscEnv) (provider : String) (now : Int)
    (s : BatchState) : BatchState :=
  let s := batchSwap s
  match s.queue with
  | [] => s
  | r :: rest =>
    let res := discoverNewsForResource env r provider now
    let retryQ :=
      if res.errMsg.isSome && !(s.retry.contains r) then s.retry ++ [r]
      else s.retry
    { queue := rest
      retry := retryQ
      created := s.created + res.created
      errors := s.errors + res.errors
      processed := s.processed + 1 }

/-- `n` iterations of the batch loop. -/
def batchIter (env : DiscEnv) (provider : String) (now : Int) :
    Nat → BatchState → BatchState
  | 0, s => s
  | n + 1, s => batchIter env provider now n (batchStep env provider now s)

/-- The loop guard `while resources or retry_queue` is false. -/
def batchDone (s : BatchState) : Bool :=
  s.queue.isEmpty && s.retry.isEmpty

/-- The batch loop with fuel: `some` final state when the loop guard
becomes false within `fuel` iterations, `none` when the fuel runs out with
the guard still true (the source loop has no bound of its own). -/
def batchRun (env : DiscEnv) (provider : String) (now : Int) :
    Nat → BatchState → Option BatchState
  | 0, s => if batchDone s then some s else none
  | n + 1, s =>
    if batchDone s then some s
    else batchRun env provider now n (batchStep env provider now s)

/-- The initial loop state of `discover_all_news`. -/
def batchInit (catalog : List Resource) : BatchState :=
  { queue := workQueue catalog, retry := [], created := 0, errors := 0, processed := 0 }

/-- `discover_all_news` (lines 1306-1396): build the queue, run the loop,
and return `(created, errors, total_processed, skipped_manual)`; `none`
when the loop does not finish within `fuel` iterations. -/
def discoverAllNews (env : DiscEnv) (catalog : List Resource)
    (provider : String) (now : Int) (fuel : Nat) :
    Option (Nat × Nat × Nat × Nat) :=
  (batchRun env provider now fuel (batchInit catalog)).map
    (fun s => (s.created, s.errors, s.processed, skippedManual catalog))

/-! ## Concrete instances used for witnesses and counterexamples -/

/-- A non-manual resource. -/
def resA : Resource := ⟨1, "A", "https://a.test", .auto, "en", ""⟩

/-- A manual-type resource. -/
def resManual : Resource := ⟨2, "M", "https://m.test", .manual, "en", ""⟩

/-- An environment with no provider enabled and no API key configured:
every pass over a target fails with the "no provider configured" error. -/
def envNone : DiscEnv :=
  ⟨false, false, false, false, false, false, .error "", .error "", .error ""⟩

/-- A well-formed news item whose creation succeeds. -/
def itemGood : NewsItemVal :=
  .obj ⟨some (.str "T"), some (.str "S"), "https://a.test/n1", false⟩

/-- A second well-formed news item. -/
def itemGood2 : NewsItemVal :=
  .obj ⟨some (.obj [("ru", "Т2"), ("en", "T2")]),
    some (.obj [("ru", "С2")]), "https://a.test/n2", false⟩

/-- A malformed entry of the `news` array (not a JSON object):
`news_item.get` raises `AttributeError` on it. -/
def itemBad : NewsItemVal := .nonObj

/-- Whether `_create_news_post` succeeds on an item: the item is a JSON
object, its `title` value is not an array, and the datastore create does
not raise. -/
def itemCreateOk (i : NewsItemVal) : Bool :=
  match i with
  | .nonObj => false
  | .obj it => !(it.title.getD (.obj []) == JVal.arr) && !it.dbCreateRaises

theorem createNewsPost_ok_iff (i : NewsItemVal) (resource : Resource)
    (now : Int) :
    (∃ p, createNewsPost i resource now = .ok p) ↔ itemCreateOk i = true := by
  cases i with
  | nonObj => simp [createNewsPost, itemCreateOk]
  | obj it =>
    simp only [createNewsPost, itemCreateOk]
    cases h : it.title.getD (.obj []) with
    | str t =>
      simp [h]
      cases hdb : it.dbCreateRaises <;> simp
    | obj es =>
      simp [h]
      cases hdb : it.dbCreateRaises <;> simp
    | arr => simp [h]

/-- Characterization of the per-item creation loop: counts of successes
and failures, and every created post has `is_no_news_found = false`. -/
theorem createLoop_spec (items : List NewsItemVal) (resource : Resource)
    (now : Int) :
    (createLoop items resource now).2.1 = items.countP itemCreateOk ∧
    (createLoop items resource now).2.2 =
      items.countP (fun i => !itemCreateOk i) ∧
    (createLoop items resource now).1.length = items.countP itemCreateOk ∧
    ∀ p ∈ (createLoop items resource now).1, p.is_no_news_found = false := by
  induction items with
  | nil => simp [createLoop]
  | cons i rest ih =>
    obtain ⟨ih1, ih2, ih3, ih4⟩ := ih
    by_cases hok : itemCreateOk i = true
    · obtain ⟨p, hp⟩ := (createNewsPost_ok_iff i resource now).mpr hok
      have hinn : p.is_no_news_found = false := by
        cases i with
        | nonObj => simp [createNewsPost] at hp
        | obj it =>
          simp only [createNewsPost] at hp
          cases h : it.title.getD (.obj []) with
          | str t =>
            rw [h] at hp
            by_cases hdb : it.dbCreateRaises <;> simp [hdb] at hp
            rw [← hp]
          | obj es =>
            rw [h] at hp
            by_cases hdb : it.dbCreateRaises <;> simp [hdb] at hp
            rw [← hp]
          | arr => rw [h] at hp; simp at hp
      refine ⟨?_, ?_, ?_, ?_⟩ <;>
        simp [createLoop, hp, List.countP_cons, hok, ih1, ih2, ih3]
      exact ⟨hinn, ih4⟩
    · have hKO : ∀ p, ¬(createNewsPost i resource now = .ok p) := by
        intro p hp
        exact hok ((createNewsPost_ok_iff i resource now).mp ⟨p, hp⟩)
      have herr : ∃ m, createNewsPost i resource now = .error m := by
        cases hc : createNewsPost i resource now with
        | ok p => exact absurd hc (hKO p)
        | error m => exact ⟨m, rfl⟩
      obtain ⟨m, hm⟩ := herr
      refine ⟨?_, ?_, ?_, ?_⟩ <;>
        simp [createLoop, hm, List.countP_cons, hok, ih1, ih2, ih3]
      exact ih4

/-- C2: for a provider response parsing to an empty `news` array,
`discover_news_for_resource` persists exactly one sentinel `NewsPost`
with `is_no_news_found=true`, reports it as 1 created record, and passes
`news_count = 0` (not 1) to the statistics update. -/
theorem empty_news_single_sentinel (resource : Resource) (now : Int)
    (llmError : Option String) :
    (processResponse resource now (.withNews []) llmError).posts =
      [createNoNewsPost resource now] ∧
    (createNoNewsPost resource now).is_no_news_found = true ∧
    (processResponse resource now (.withNews []) llmError).created = 1 ∧
    (processResponse resource now (.withNews []) llmError).errors = 0 ∧
    (processResponse resource now (.withNews []) llmError).errMsg = none ∧
    (processResponse resource now (.withNews []) llmError).statsCall =
      some ⟨0, 0, true, llmError.isSome⟩ ∧
    (∀ env : DiscEnv, env.grokKey = true →
      env.grokResult = .ok (.withNews []) →
      discoverNewsForResource env resource "grok" now =
        processResponse resource now (.withNews []) none) := by
  refine ⟨rfl, rfl, rfl, rfl, rfl, rfl, ?_⟩
  intro env hk hr
  rw [discoverNewsForResource, if_neg (by decide : ¬("grok" : String) = "auto"),
    if_pos rfl]
  simp [hk, hr, processAfterChain, LLMResp.truthy]

/-- Witness for C2: a concrete explicit-Grok environment returning the
empty `news` array yields exactly the single no-news sentinel outcome. -/
theorem empty_news_single_sentinel_witness :
    discoverNewsForResource
      ⟨false, false, false, true, false, false, .ok (.withNews []),
        .error "", .error ""⟩ resA "grok" 0 =
      processResponse resA 0 (.withNews []) none ∧
    (processResponse resA 0 (.withNews []) none).created = 1 :=
  ⟨(empty_news_single_sentinel resA 0 none).2.2.2.2.2.2 _ rfl rfl,
   (empty_news_single_sentinel resA 0 none).2.2.1⟩

/-- C3: for a response whose `news` array is non-empty, item creation
produces one `NewsPost` per successfully created item, each with
`is_no_news_found = false`; a per-item failure is caught individually,
counted as an error, and does not prevent creation of the remaining items
(counts are over the whole list); with all `N` items well-formed, exactly
`N` rows result. -/
theorem n_items_create_n_posts (resource : Resource) (now : Int)
    (llmError : Option String) (items : List NewsItemVal)
    (hne : items ≠ []) :
    (processResponse resource now (.withNews items) llmError).created =
      items.countP itemCreateOk ∧
    (processResponse resource now (.withNews items) llmError).errors =
      items.countP (fun i => !itemCreateOk i) ∧
    (processResponse resource now (.withNews items) llmError).posts.length =
      items.countP itemCreateOk ∧
    (∀ p ∈ (processResponse resource now (.withNews items) llmError).posts,
      p.is_no_news_found = false) ∧
    ((∀ i ∈ items, itemCreateOk i = true) →
      (processResponse resource now (.withNews items) llmError).posts.length =
        items.length ∧
      (processResponse resource now (.withNews items) llmError).errors = 0) := by
  have hni : items.isEmpty = false := by
    cases items with
    | nil => exact absurd rfl hne
    | cons a l => rfl
  obtain ⟨h1, h2, h3, h4⟩ := createLoop_spec items resource now
  refine ⟨?_, ?_, ?_, ?_, ?_⟩ <;>
    simp only [processResponse, hni, Bool.false_eq_true, if_false]
  · exact h1
  · exact h2
  · exact h3
  · exact h4
  · intro hall
    constructor
    · rw [h3]
      exact List.countP_eq_length.mpr (fun i hi => hall i hi)
    · rw [h2]
      simp only [List.countP_eq_zero]
      intro i hi
      simp [hall i hi]

/-- Witness for C3 at a concrete two-item response (both well-formed). -/
theorem n_items_create_n_posts_witness :
    (processResponse resA 0 (.withNews [itemGood, itemGood2]) none).posts.length = 2 ∧
    (processResponse resA 0 (.withNews [itemGood, itemGood2]) none).errors = 0 :=
  by
    have h := n_items_create_n_posts resA 0 none [itemGood, itemGood2] (by decide)
    exact ⟨(h.2.2.2.2 (by decide)).1, (h.2.2.2.2 (by decide)).2⟩

/-- C5 counterexample: on a raw response text whose direct `json.loads`
fails (for instance plain prose, after the markdown-fence strip), the
Gemini parse path and the OpenAI Chat-Completions fallback path raise a
`ValueError` instead of returning the `{"news": []}` sentinel — so the
JSON-extraction step does not hold on every adapter's parse path. -/
theorem extraction_raises_counterexample :
    geminiExtract none = Except.error "Invalid JSON response from Gemini" ∧
    openaiChatExtract none = Except.error "Invalid JSON response from OpenAI" :=
  ⟨rfl, rfl⟩

/-- C5 amended: the JSON-extraction step never raises on the Grok, OpenAI
Responses-API and Anthropic parse paths — if direct parsing and every
fallback recovery strategy fail, those paths return the `{"news": []}`
sentinel; however the Gemini adapter and the OpenAI Chat-Completions
fallback path raise on unparseable output instead (their errors are then
caught one level up by the per-provider exception handling). -/
theorem extraction_cascades_amended :
    (∀ d r f : Option LLMResp, ∃ v, grokExtract d r f = .ok v) ∧
    grokExtract none none none = .ok (.withNews []) ∧
    (∀ d r : Option LLMResp, ∃ v, openaiResponsesExtract d r = .ok v) ∧
    openaiResponsesExtract none none = .ok (.withNews []) ∧
    (∀ d f r : Option LLMResp, ∀ b : Option (List NewsItemVal),
      ∃ v, anthropicExtract d f r b = .ok v) ∧
    anthropicExtract none none none none = .ok (.withNews []) ∧
    geminiExtract none = .error "Invalid JSON response from Gemini" ∧
    openaiChatExtract none = .error "Invalid JSON response from OpenAI" := by
  refine ⟨?_, rfl, ?_, rfl, ?_, rfl, rfl, rfl⟩
  · intro d r f
    cases d with
    | some v => exact ⟨v, rfl⟩
    | none =>
      simp only [grokExtract]
      exact ite_ok_exists _ _
  · intro d r
    cases d with
    | some v => exact ⟨v, rfl⟩
    | none =>
      simp only [openaiResponsesExtract]
      exact ite_ok_exists _ _
  · intro d f r b
    cases d with
    | some v => exact ⟨v, rfl⟩
    | none =>
      simp only [anthropicExtract]
      exact ite_ok_exists _ _

/-- C4: under the call-site invariant of the program (`error_count > 0`
is only ever passed together with `has_errors=True`: see lines 228-234,
252-258, 276-282, 298-304, 312-318, 346-352), every statistics-update
call increments exactly one outcome bucket — `has_errors` increments only
`total_errors`, else `is_no_news` increments only `total_no_news`, else
`total_news_found` grows by `news_count` and `last_news_date` is set; in
particular a call with `has_errors=True` never changes
`total_news_found`. -/
theorem stats_bucket_exclusive (posts : List Post) (resource : Resource)
    (now : Int) (stats : Stats) (wasCreated : Bool)
    (newsCount errorCount : Nat) (isNoNews hasErrors : Bool)
    (hcall : 0 < errorCount → hasErrors = true) :
    (updateResourceStatistics posts resource now stats wasCreated newsCount
      errorCount isNoNews hasErrors).total_searches =
        stats.total_searches + 1 ∧
    (updateResourceStatistics posts resource now stats wasCreated newsCount
      errorCount isNoNews hasErrors).total_errors =
        stats.total_errors + (if hasErrors then 1 else 0) ∧
    (updateResourceStatistics posts resource now stats wasCreated newsCount
      errorCount isNoNews hasErrors).total_no_news =
        stats.total_no_news + (if !hasErrors && isNoNews then 1 else 0) ∧
    (updateResourceStatistics posts resource now stats wasCreated newsCount
      errorCount isNoNews hasErrors).total_news_found =
        stats.total_news_found +
          (if !hasErrors && !isNoNews then newsCount else 0) ∧
    (hasErrors = true →
      (updateResourceStatistics posts resource now stats wasCreated newsCount
        errorCount isNoNews hasErrors).total_news_found =
          stats.total_news_found) ∧
    ((!hasErrors && !isNoNews) = true →
      (updateResourceStatistics posts resource now stats wasCreated newsCount
        errorCount isNoNews hasErrors).last_news_date = some now) := by
  have hcond : (hasErrors || decide (0 < errorCount)) = hasErrors := by
    cases hasErrors with
    | true => simp
    | false =>
      simp only [Bool.false_or]
      by_cases h : 0 < errorCount
      · exact absurd (hcall h) (by simp)
      · simp [h]
  obtain ⟨u1, u2, u3, u4, u5⟩ :=
    update_counters_spec posts resource now stats wasCreated newsCount
      errorCount isNoNews hasErrors
  rw [hcond] at u2 u3 u4 u5
  refine ⟨u1, u2, u3, u4, ?_, u5⟩
  intro h
  rw [u4]
  simp [h]

/-- A fresh statistics row (all fields at their model defaults). -/
def stats0 : Stats :=
  ⟨0, 0, 0, 0, none, none, none, 0, 0, 0, 0, 0, 0, 0, 0, true⟩

/-- Witness for C4 at a concrete call with `has_errors=true`. -/
theorem stats_bucket_exclusive_witness :
    (updateResourceStatistics [] resA 0 stats0 false 3 1 false
      true).total_news_found = stats0.total_news_found ∧
    (updateResourceStatistics [] resA 0 stats0 false 3 1 false
      true).total_errors = stats0.total_errors + 1 := by
  have h := stats_bucket_exclusive [] resA 0 stats0 false 3 1 false true
    (fun _ => rfl)
  refine ⟨h.2.2.2.2.1 rfl, ?_⟩
  rw [h.2.1]
  simp

/-- Both branches of the post-chain processing issue a statistics call. -/
theorem processAfterChain_statsCall (resource : Resource) (now : Int)
    (respOpt : Option LLMResp) (errorsChain : List String) :
    (processAfterChain resource now respOpt errorsChain).statsCall ≠ none := by
  unfold processAfterChain
  cases respOpt with
  | none => simp
  | some r =>
    by_cases h : r.truthy = true
    · simp only [h, if_true]
      unfold processResponse
      split <;> try simp
      split <;> simp
    · simp [h]

/-- C6 counterexample: with an explicitly selected provider whose API key
is not configured (and likewise with an unknown provider string),
`discover_news_for_resource` creates the error sentinel and returns at
lines 262-266 / 284-288 without calling `_update_resource_statistics`,
so `total_searches` is not incremented on that terminal outcome. -/
theorem missing_key_no_statistics_counterexample :
    (discoverNewsForResource envNone resA "openai" 0).statsCall = none ∧
    (discoverNewsForResource envNone resA "openai" 0).errors = 1 ∧
    (discoverNewsForResource envNone resA "unknown" 0).statsCall = none := by
  decide

/-- C6 amended: the statistics update runs exactly once per target on the
terminal outcomes news-created, no-news sentinel, all-providers-failed and
explicit-provider query exception (each such call incrementing
`total_searches` by exactly 1), but it does not run at all on the
missing-API-key and unknown-provider outcomes. -/
theorem statistics_call_characterization (env : DiscEnv)
    (resource : Resource) (now : Int) :
    (discoverNewsForResource env resource "auto" now).statsCall ≠ none ∧
    ((discoverNewsForResource env resource "grok" now).statsCall = none ↔
      env.grokKey = false) ∧
    ((discoverNewsForResource env resource "anthropic" now).statsCall = none ↔
      env.anthropicKey = false) ∧
    ((discoverNewsForResource env resource "openai" now).statsCall = none ↔
      env.openaiKey = false) ∧
    (∀ p : String, p ≠ "auto" → p ≠ "grok" → p ≠ "anthropic" →
      p ≠ "openai" →
      (discoverNewsForResource env resource p now).statsCall = none) ∧
    (∀ (posts : List Post) (stats : Stats) (wasCreated : Bool)
      (a : StatsArgs),
      (updateResourceStatistics posts resource now stats wasCreated
        a.news_count a.error_count a.is_no_news a.has_errors).total_searches =
        stats.total_searches + 1) := by
  refine ⟨?_, ?_, ?_, ?_, ?_, ?_⟩
  · rw [discoverNewsForResource, if_pos rfl]
    exact processAfterChain_statsCall resource now (autoChain env).1
      (autoChain env).2
  · cases hk : env.grokKey with
    | false => simp [discoverNewsForResource, hk]
    | true =>
      cases hr : env.grokResult with
      | ok r =>
        simp [discoverNewsForResource, hk, hr,
          processAfterChain_statsCall resource now (some r) []]
      | error m => simp [discoverNewsForResource, hk, hr]
  · cases hk : env.anthropicKey with
    | false => simp [discoverNewsForResource, hk]
    | true =>
      cases hr : env.anthropicResult with
      | ok r =>
        simp [discoverNewsForResource, hk, hr,
          processAfterChain_statsCall resource now (some r) []]
      | error m => simp [discoverNewsForResource, hk, hr]
  · cases hk : env.openaiKey with
    | false => simp [discoverNewsForResource, hk]
    | true =>
      cases hr : env.openaiResult with
      | ok r =>
        simp [discoverNewsForResource, hk, hr,
          processAfterChain_statsCall resource now (some r) []]
      | error m => simp [discoverNewsForResource, hk, hr]
  · intro p h1 h2 h3 h4
    simp [discoverNewsForResource, h1, h2, h3, h4]
  · intro posts stats wasCreated a
    exact (update_counters_spec posts resource now stats wasCreated
      a.news_count a.error_count a.is_no_news a.has_errors).1

/-- Witness for C6 amended at a concrete environment: an unknown provider
string yields no statistics call, while the auto path always issues one. -/
theorem statistics_call_characterization_witness :
    (discoverNewsForResource envNone resA "gemini" 0).statsCall = none ∧
    (discoverNewsForResource envNone resA "auto" 0).statsCall ≠ none :=
  ⟨(statistics_call_characterization envNone resA 0).2.2.2.2.1 "gemini"
    (by decide) (by decide) (by decide) (by decide),
   (statistics_call_characterization envNone resA 0).1⟩

/-- The queue-or-retry swap only moves targets between the two queues. -/
theorem batchSwap_mem (s : BatchState) (r : Resource)
    (h : r ∈ (batchSwap s).queue ∨ r ∈ (batchSwap s).retry) :
    r ∈ s.queue ∨ r ∈ s.retry := by
  revert h
  unfold batchSwap
  split
  · intro h
    rcases h with h | h
    · exact Or.inr h
    · simp at h
  · exact id

/-- One loop iteration only keeps or drops targets; it never introduces a
target that was not already in one of the two queues. -/
theorem batchStep_mem (env : DiscEnv) (provider : String) (now : Int)
    (s : BatchState) (r : Resource)
    (h : r ∈ (batchStep env provider now s).queue ∨
      r ∈ (batchStep env provider now s).retry) :
    r ∈ s.queue ∨ r ∈ s.retry := by
  have hsw := batchSwap_mem s r
  revert h
  simp only [batchStep]
  rcases hbs : batchSwap s with ⟨q, rq, c, e, p⟩
  cases q with
  | nil =>
    intro h
    apply hsw
    rw [hbs]
    exact h
  | cons a rest =>
    intro h
    apply hsw
    rw [hbs]
    have h2 : r ∈ rest ∨
        r ∈ (if ((discoverNewsForResource env a provider now).errMsg.isSome
          && !(rq.contains a)) = true then rq ++ [a] else rq) := h
    rcases h2 with h2 | h2
    · exact Or.inl (List.mem_cons_of_mem a h2)
    · revert h2
      split
      · intro h2
        rcases List.mem_append.mp h2 with h3 | h3
        · exact Or.inr h3
        · simp at h3
          exact Or.inl (by simp [h3])
      · intro h2
        exact Or.inr h2

/-- C8: the work queue of `discover_all_news` contains no `manual`-type
source; the `skipped_manual` tally counts exactly the manual sources; and
no state reachable by the batch loop ever holds a manual source in its
main or retry queue, so a manual source is never passed to per-resource
discovery and no provider call is made for it. -/
theorem manual_sources_never_discovered (catalog : List Resource) :
    (∀ r ∈ workQueue catalog, r.sourceType ≠ SourceType.manual) ∧
    skippedManual catalog =
      catalog.countP (fun r => r.sourceType == SourceType.manual) ∧
    (∀ (env : DiscEnv) (provider : String) (now : Int) (n : Nat)
      (r : Resource),
      (r ∈ (batchIter env provider now n (batchInit catalog)).queue ∨
       r ∈ (batchIter env provider now n (batchInit catalog)).retry) →
      r.sourceType ≠ SourceType.manual) := by
  have hqueue : ∀ r ∈ workQueue catalog, r.sourceType ≠ SourceType.manual := by
    intro r hr
    have := (List.mem_filter.mp hr).2
    simp at this
    simp [this]
  refine ⟨hqueue, ?_, ?_⟩
  · simp [skippedManual, List.countP_eq_length_filter]
  · intro env provider now n
    have hiter : ∀ (m : Nat) (s : BatchState),
        (∀ r : Resource, (r ∈ s.queue ∨ r ∈ s.retry) →
          r.sourceType ≠ SourceType.manual) →
        ∀ r : Resource,
          (r ∈ (batchIter env provider now m s).queue ∨
           r ∈ (batchIter env provider now m s).retry) →
          r.sourceType ≠ SourceType.manual := by
      intro m
      induction m with
      | zero => exact fun s h => h
      | succ k ih =>
        intro s h r hr
        exact ih (batchStep env provider now s)
          (fun x hx => h x (batchStep_mem env provider now s x hx)) r hr
    intro r hr
    apply hiter n (batchInit catalog) ?_ r hr
    intro x hx
    rcases hx with hx | hx
    · exact hqueue x hx
    · simp [batchInit] at hx

/-- Witness for C8 at a concrete two-source catalog. -/
theorem manual_sources_never_discovered_witness :
    workQueue [resA, resManual] = [resA] ∧
    resA.sourceType ≠ SourceType.manual ∧
    skippedManual [resA, resManual] = 1 := by
  refine ⟨by decide, ?_, ?_⟩
  · exact (manual_sources_never_discovered [resA, resManual]).2.2 envNone
      "auto" 0 0 resA (Or.inl (by decide))
  · rw [(manual_sources_never_discovered [resA, resManual]).2.1]
    decide

/-- Appending one post to the table changes a windowed count by its filter
verdict. -/
theorem windowCount_append_single (posts : List Post) (p : Post)
    (url : String) (cutoff : Int) :
    windowCount (posts ++ [p]) url cutoff = windowCount posts url cutoff +
      (if (icontains p.source_url url && !p.is_no_news_found
        && decide (cutoff ≤ p.created_at)) = true then 1 else 0) := by
  simp [windowCount, List.countP_append, List.countP_cons]

/-- The error sentinel passes the windowed-recount filter whenever its
creation time is inside the window. -/
theorem errorNews_matches_filter (resource : Resource) (msg : String)
    (now cutoff : Int) (hcut : cutoff ≤ now) :
    (icontains (createErrorNews resource msg now).source_url resource.url
      && !(createErrorNews resource msg now).is_no_news_found
      && decide (cutoff ≤ (createErrorNews resource msg now).created_at))
      = true := by
  simp only [createErrorNews, icontains_self, Bool.not_false, Bool.and_self,
    Bool.true_and, decide_eq_true_eq]
  exact hcut

/-- C9: the error sentinel created by `_create_error_news` has
`is_no_news_found=false` and `source_url` equal to the resource URL, so
the windowed recount of `_update_resource_statistics` (filtering only on
`is_no_news_found=False`, URL containment and creation date) counts it as
real news: `news_last_30_days` and `news_last_90_days` each grow by one
relative to the table without it, and `is_active` comes out true. -/
theorem error_sentinel_counts_as_real_news (resource : Resource)
    (msg : String) (now : Int) (posts : List Post) (stats : Stats)
    (wasCreated : Bool) :
    (createErrorNews resource msg now).is_no_news_found = false ∧
    (createErrorNews resource msg now).source_url = resource.url ∧
    windowCount (posts ++ [createErrorNews resource msg now]) resource.url
        (now - 30 * 86400) =
      windowCount posts resource.url (now - 30 * 86400) + 1 ∧
    windowCount (posts ++ [createErrorNews resource msg now]) resource.url
        (now - 90 * 86400) =
      windowCount posts resource.url (now - 90 * 86400) + 1 ∧
    (updateResourceStatistics (posts ++ [createErrorNews resource msg now])
      resource now stats wasCreated 0 1 false true).news_last_30_days =
      windowCount posts resource.url (now - 30 * 86400) + 1 ∧
    (updateResourceStatistics (posts ++ [createErrorNews resource msg now])
      resource now stats wasCreated 0 1 false true).news_last_90_days =
      windowCount posts resource.url (now - 90 * 86400) + 1 ∧
    (updateResourceStatistics (posts ++ [createErrorNews resource msg now])
      resource now stats wasCreated 0 1 false true).is_active = true := by
  have h30 : windowCount (posts ++ [createErrorNews resource msg now])
      resource.url (now - 30 * 86400) =
      windowCount posts resource.url (now - 30 * 86400) + 1 := by
    rw [windowCount_append_single, if_pos (errorNews_matches_filter resource
      msg now (now - 30 * 86400) (by omega))]
  have h90 : windowCount (posts ++ [createErrorNews resource msg now])
      resource.url (now - 90 * 86400) =
      windowCount posts resource.url (now - 90 * 86400) + 1 := by
    rw [windowCount_append_single, if_pos (errorNews_matches_filter resource
      msg now (now - 90 * 86400) (by omega))]
  set table := posts ++ [createErrorNews resource msg now] with htable
  obtain ⟨w1, w2, -⟩ := windowStage_spec table resource now (ratesStage
    (countersStage stats now wasCreated 0 1 false true))
  obtain ⟨-, t2, -, -, -, -, -, -, t9, t10, -⟩ := scoreStage_spec
    (windowStage table resource now (ratesStage
      (countersStage stats now wasCreated 0 1 false true)))
  refine ⟨rfl, rfl, h30, h90, ?_, ?_, ?_⟩
  · rw [updateResourceStatistics, t9, w1, h30]
  · rw [updateResourceStatistics, t10, w2, h90]
  · rw [updateResourceStatistics, t2, w2, h90]
    simp

/-- C10: in the `auto` chain, when Grok raises and Anthropic then returns
a non-empty response, the recorded error chain makes the final statistics
call carry `has_errors=true` — so it increments `total_errors` and leaves
`total_news_found` untouched even though real news posts were created —
while the function returns `error_message=None` (the target is not
re-queued). -/
theorem auto_chain_partial_failure_counts_as_error (env : DiscEnv)
    (resource : Resource) (now : Int) (stats : Stats) (posts : List Post)
    (wasCreated : Bool) (m : String) (items : List NewsItemVal)
    (hg1 : env.useGrok = true) (hg2 : env.grokKey = true)
    (hgr : env.grokResult = .error m)
    (ha1 : env.useAnthropic = true) (ha2 : env.anthropicKey = true)
    (har : env.anthropicResult = .ok (.withNews items))
    (hne : items ≠ []) :
    (discoverNewsForResource env resource "auto" now).errMsg = none ∧
    (discoverNewsForResource env resource "auto" now).statsCall =
      some ⟨items.countP itemCreateOk,
        items.countP (fun i => !itemCreateOk i), false, true⟩ ∧
    (∀ p ∈ (discoverNewsForResource env resource "auto" now).posts,
      p.is_no_news_found = false) ∧
    (updateResourceStatistics posts resource now stats wasCreated
      (items.countP itemCreateOk) (items.countP (fun i => !itemCreateOk i))
      false true).total_errors = stats.total_errors + 1 ∧
    (updateResourceStatistics posts resource now stats wasCreated
      (items.countP itemCreateOk) (items.countP (fun i => !itemCreateOk i))
      false true).total_news_found = stats.total_news_found := by
  have hni : items.isEmpty = false := by
    cases items with
    | nil => exact absurd rfl hne
    | cons a l => rfl
  have hchain : autoChain env =
      (some (.withNews items), ["Grok: " ++ m]) := by
    simp [autoChain, hg1, hg2, hgr, ha1, ha2, har, notRes, LLMResp.truthy]
  have hdisc : discoverNewsForResource env resource "auto" now =
      processResponse resource now (.withNews items)
        (some (String.intercalate "; " ["Grok: " ++ m])) := by
    rw [discoverNewsForResource, if_pos rfl, hchain]
    simp [processAfterChain, LLMResp.truthy]
  obtain ⟨l1, l2, l3, l4⟩ := createLoop_spec items resource now
  obtain ⟨u1, u2, u3, u4, u5⟩ :=
    update_counters_spec posts resource now stats wasCreated
      (items.countP itemCreateOk) (items.countP (fun i => !itemCreateOk i))
      false true
  refine ⟨?_, ?_, ?_, ?_, ?_⟩
  · rw [hdisc]
    simp [processResponse, hni]
  · rw [hdisc]
    simp [processResponse, hni, l1, l2]
  · rw [hdisc]
    intro p hp
    apply l4
    revert hp
    simp [processResponse, hni]
  · rw [u2]
    simp
  · rw [u4]
    simp

/-- Witness for C10 at a concrete environment: Grok enabled but raising,
Anthropic enabled and returning one well-formed item. -/
theorem auto_chain_partial_failure_witness :
    (discoverNewsForResource
      ⟨true, true, false, true, true, false, .error "timeout",
        .ok (.withNews [itemGood]), .error ""⟩ resA "auto" 0).errMsg =
      none ∧
    (discoverNewsForResource
      ⟨true, true, false, true, true, false, .error "timeout",
        .ok (.withNews [itemGood]), .error ""⟩ resA "auto" 0).statsCall =
      some ⟨1, 0, false, true⟩ := by
  have h := auto_chain_partial_failure_counts_as_error
    ⟨true, true, false, true, true, false, .error "timeout",
      .ok (.withNews [itemGood]), .error ""⟩ resA 0 stats0 [] false
    "timeout" [itemGood] rfl rfl rfl rfl rfl rfl (by decide)
  exact ⟨h.1, by rw [h.2.1]; decide⟩

/-- C1: the batch loop of `discover_all_news` does not implement a single
retry pass.  `max_retries = 1` (line 1341) is assigned but never read: a
target failing in the retry pass is appended to the freshly cleared retry
queue again (line 1365-1367), so for a target that fails on every provider
in every pass — here, one non-manual source with no LLM provider
configured — the loop state cycles forever: after `n + 1` iterations the
queues still hold the target and the error tally has grown to `n + 1`,
and the batch never terminates for any amount of fuel. -/
theorem discover_all_retry_loop_diverges :
    (∀ n : Nat, batchIter envNone "auto" 0 (n + 1) (batchInit [resA]) =
      ⟨[], [resA], 0, n + 1, n + 1⟩) ∧
    (∀ fuel : Nat, discoverAllNews envNone [resA] "auto" 0 fuel = none) := by
  have hstep0 : batchStep envNone "auto" 0 (batchInit [resA]) =
      ⟨[], [resA], 0, 1, 1⟩ := by decide
  have hcycle : ∀ c e p : Nat, batchStep envNone "auto" 0 ⟨[], [resA], c, e, p⟩ =
      ⟨[], [resA], c, e + 1, p + 1⟩ := by
    intro c e p
    simp [batchStep, batchSwap]
    constructor
    · decide
    · decide
  have hiter : ∀ (n c e p : Nat),
      batchIter envNone "auto" 0 n ⟨[], [resA], c, e, p⟩ =
        ⟨[], [resA], c, e + n, p + n⟩ := by
    intro n
    induction n with
    | zero => intro c e p; rfl
    | succ k ih =>
      intro c e p
      show batchIter envNone "auto" 0 k
        (batchStep envNone "auto" 0 ⟨[], [resA], c, e, p⟩) = _
      rw [hcycle, ih]
      simp only [BatchState.mk.injEq, true_and]
      omega
  have hrun : ∀ (fuel c e p : Nat),
      batchRun envNone "auto" 0 fuel ⟨[], [resA], c, e, p⟩ = none := by
    intro fuel
    induction fuel with
    | zero => intro c e p; simp [batchRun, batchDone]
    | succ k ih =>
      intro c e p
      rw [batchRun]
      simp only [batchDone, List.isEmpty_nil, List.isEmpty_cons,
        Bool.and_false, Bool.false_eq_true, if_false]
      rw [hcycle]
      exact ih c (e + 1) (p + 1)
  constructor
  · intro n
    show batchIter envNone "auto" 0 n
      (batchStep envNone "auto" 0 (batchInit [resA])) = _
    rw [hstep0, hiter]
    simp only [BatchState.mk.injEq, true_and]
    omega
  · intro fuel
    rw [discoverAllNews]
    cases fuel with
    | zero => rfl
    | succ k =>
      rw [batchRun]
      rw [if_neg (by decide : ¬batchDone (batchInit [resA]) = true)]
      rw [hstep0, hrun k 0 1 1]
      rfl

/-- Rounding to two decimals preserves non-negativity. -/
theorem rnd2_nonneg {q : ℚ} (h : 0 ≤ q) : 0 ≤ rnd2 q := by
  unfold rnd2
  apply div_nonneg _ (by norm_num)
  rw [Int.cast_nonneg]
  rw [round_eq]
  rw [Int.le_floor]
  push_cast
  linarith

/-- Rounding to two decimals preserves the upper bound 100. -/
theorem rnd2_le_hundred {q : ℚ} (h : q ≤ 100) : rnd2 q ≤ 100 := by
  unfold rnd2
  rw [div_le_iff₀ (by norm_num : (0:ℚ) < 100)]
  have hfl : round (100 * q) ≤ (10000 : ℤ) := by
    rw [round_eq]
    have h2 : (100 : ℚ) * q + 1 / 2 < 10001 := by linarith
    have h3 : (⌊(100 : ℚ) * q + 1 / 2⌋ : ℚ) < 10001 := by
      calc (⌊(100 : ℚ) * q + 1 / 2⌋ : ℚ) ≤ (100 : ℚ) * q + 1 / 2 :=
            Int.floor_le _
        _ < 10001 := h2
    have h4 : ⌊(100 : ℚ) * q + 1 / 2⌋ < (10001 : ℤ) := by exact_mod_cast h3
    omega
  calc ((round (100 * q) : ℤ) : ℚ) ≤ ((10000 : ℤ) : ℚ) := by
        exact_mod_cast hfl
    _ = 100 * 100 := by norm_num

/-- `calculate_ranking_score` stays in [0, 100] whenever the stored
`success_rate` is in [0, 100] and `avg_news_per_search` is non-negative
(the integer counters are non-negative by type). -/
theorem calculateRankingScore_bounds (s : Stats)
    (h1 : 0 ≤ s.success_rate) (h2 : s.success_rate ≤ 100)
    (h3 : 0 ≤ s.avg_news_per_search) :
    0 ≤ calculateRankingScore s ∧ calculateRankingScore s ≤ 100 := by
  unfold calculateRankingScore
  have htn1 : (0:ℚ) ≤ min ((s.total_news_found : ℚ) / 10) 100 :=
    le_min (by positivity) (by norm_num)
  have htn2 : min ((s.total_news_found : ℚ) / 10) 100 ≤ 100 := min_le_right _ _
  have hac1 : (0:ℚ) ≤ min ((s.news_last_30_days : ℚ) * 5) 100 :=
    le_min (by positivity) (by norm_num)
  have hac2 : min ((s.news_last_30_days : ℚ) * 5) 100 ≤ 100 := min_le_right _ _
  have hav1 : (0:ℚ) ≤ min (s.avg_news_per_search * 20) 100 :=
    le_min (by linarith) (by norm_num)
  have hav2 : min (s.avg_news_per_search * 20) 100 ≤ 100 := min_le_right _ _
  constructor
  · apply rnd2_nonneg
    have := h1
    positivity
  · apply rnd2_le_hundred
    nlinarith [htn1, htn2, hac1, hac2, hav1, hav2, h1, h2]

/-- The reachable-state invariant of the statistics model:
at most one of `total_no_news` / `total_errors` is charged per search. -/
def statsInvariant (s : Stats) : Prop :=
  s.total_no_news + s.total_errors ≤ s.total_searches

/-- C7: every statistics update preserves the invariant
`total_no_news + total_errors ≤ total_searches`; under it the recomputed
`success_rate` stays in [0, 100] and `avg_news_per_search` stays
non-negative, so the `ranking_score` stored by the update is always in
[0, 100] regardless of input magnitudes. -/
theorem ranking_score_in_range (posts : List Post) (resource : Resource)
    (now : Int) (stats : Stats) (wasCreated : Bool)
    (newsCount errorCount : Nat) (isNoNews hasErrors : Bool)
    (hInv : statsInvariant stats) :
    statsInvariant (updateResourceStatistics posts resource now stats
      wasCreated newsCount errorCount isNoNews hasErrors) ∧
    0 ≤ (updateResourceStatistics posts resource now stats wasCreated
      newsCount errorCount isNoNews hasErrors).success_rate ∧
    (updateResourceStatistics posts resource now stats wasCreated newsCount
      errorCount isNoNews hasErrors).success_rate ≤ 100 ∧
    0 ≤ (updateResourceStatistics posts resource now stats wasCreated
      newsCount errorCount isNoNews hasErrors).avg_news_per_search ∧
    0 ≤ (updateResourceStatistics posts resource now stats wasCreated
      newsCount errorCount isNoNews hasErrors).ranking_score ∧
    (updateResourceStatistics posts resource now stats wasCreated newsCount
      errorCount isNoNews hasErrors).ranking_score ≤ 100 := by
  obtain ⟨c1, c2, c3, c4, c5, c6⟩ :=
    countersStage_spec stats now wasCreated newsCount errorCount isNoNews
      hasErrors
  set C := countersStage stats now wasCreated newsCount errorCount isNoNews
    hasErrors with hC
  have hInvC : C.total_no_news + C.total_errors ≤ C.total_searches := by
    rw [c1, c2, c3]
    by_cases hA : (hasErrors || decide (0 < errorCount)) = true <;>
      by_cases hB : isNoNews = true <;> simp [hA, hB] <;>
        unfold statsInvariant at hInv <;> omega
  have hpos : 0 < C.total_searches := by
    rw [c1]
    exact Nat.succ_pos _
  obtain ⟨hsr, hav⟩ := ratesStage_rates C hpos
  set R := ratesStage C with hR
  have haq : (0:ℚ) < (C.total_searches : ℚ) := by exact_mod_cast hpos
  have hbc : (C.total_no_news : ℚ) + (C.total_errors : ℚ) ≤
      (C.total_searches : ℚ) := by exact_mod_cast hInvC
  have hsr1 : 0 ≤ R.success_rate := by
    rw [hsr]
    apply rnd2_nonneg
    apply mul_nonneg _ (by norm_num)
    apply div_nonneg _ (le_of_lt haq)
    have hb : (0:ℚ) ≤ (C.total_no_news : ℚ) := by positivity
    have hc : (0:ℚ) ≤ (C.total_errors : ℚ) := by positivity
    linarith
  have hsr2 : R.success_rate ≤ 100 := by
    rw [hsr]
    apply rnd2_le_hundred
    have hb : (0:ℚ) ≤ (C.total_no_news : ℚ) := by positivity
    have hc : (0:ℚ) ≤ (C.total_errors : ℚ) := by positivity
    have hr1 : ((C.total_searches : ℚ) - (C.total_no_news : ℚ)
        - (C.total_errors : ℚ)) / (C.total_searches : ℚ) ≤ 1 := by
      rw [div_le_one haq]
      linarith
    nlinarith
  have hav1 : 0 ≤ R.avg_news_per_search := by
    rw [hav]
    apply rnd2_nonneg
    positivity
  obtain ⟨-, -, w3, w4, w5, w6, w7, w8, -⟩ :=
    windowStage_spec posts resource now R
  set W := windowStage posts resource now R with hW
  obtain ⟨t1, -, t3, t4, t5, t6, t7, t8, -, -, -⟩ := scoreStage_spec W
  obtain ⟨rp1, rp2, rp3, -, -, -, -, -⟩ := ratesStage_preserves C
  have hup : updateResourceStatistics posts resource now stats wasCreated
      newsCount errorCount isNoNews hasErrors = scoreStage W := rfl
  obtain ⟨hrk1, hrk2⟩ := calculateRankingScore_bounds W
    (by rw [w7]; exact hsr1) (by rw [w7]; exact hsr2)
    (by rw [w8]; exact hav1)
  refine ⟨?_, ?_, ?_, ?_, ?_, ?_⟩
  · show statsInvariant (scoreStage W)
    unfold statsInvariant
    rw [t5, t4, t3, w5, w4, w3, rp3, rp2, rp1]
    exact hInvC
  · rw [hup, t7, w7]
    exact hsr1
  · rw [hup, t7, w7]
    exact hsr2
  · rw [hup, t8, w8]
    exact hav1
  · rw [hup, t1]
    exact hrk1
  · rw [hup, t1]
    exact hrk2

/-- Witness for C7 at a fresh statistics row and an extreme news count. -/
theorem ranking_score_in_range_witness :
    0 ≤ (updateResourceStatistics [] resA 0 stats0 true 10000 0 false
      false).ranking_score ∧
    (updateResourceStatistics [] resA 0 stats0 true 10000 0 false
      false).ranking_score ≤ 100 := by
  have h := ranking_score_in_range [] resA 0 stats0 true 10000 0 false false
    (by unfold statsInvariant stats0; decide)
  exact ⟨h.2.2.2.2.1, h.2.2.2.2.2⟩

end HvacNews
